import Mathlib

/-!
Verification development for the Banfield Pet Hospital intake application
(`src/app.py`, a single-file Streamlit + psycopg2 program).

The embedding below translates the program faithfully:

* Dates are modelled as natural numbers (a date is an opaque totally
  ordered value here); `Option Nat` models a Python value that may be
  `None`.
* The external PostgreSQL database is modelled by `Db`: the rows of the
  single table, the next value of the `id` SERIAL sequence, and the
  server clock `now` used for the `created_at DEFAULT NOW()` column.
  `PetRecord` has total (non-`Option`) fields exactly for the columns
  that can never be NULL in a row produced by this program
  (`id SERIAL PRIMARY KEY`, `full_name TEXT NOT NULL`,
  `date_of_birth DATE NOT NULL`, `created_at` with default `NOW()`).
* Each adapter operation returns, besides its result, the list of
  low-level database events it performs (`connect`, statement
  executions, `commit`, `rollback`), so that connection-management and
  retry behaviour are visible in the model.
* Fallible Python code (raised exceptions) becomes `Except DbError`.
-/

set_option linter.unusedVariables false

/-- Environment seen by the record-store adapter: the optional OAuth
token obtained from `credentials.py` (`LAKEBASE_OAUTH_TOKEN`, which is
`None` when that module is absent), and whether the database host is
reachable. -/
structure DbEnv where
  token : Option String
  reachable : Bool
  deriving DecidableEq, Repr

/-- The raw values entered in the Streamlit form (`main`, lines 24-62).
`pet_id` is not part of the input: it is session state, displayed
read-only.  `date_of_birth` is `Option` because the code defends against
`st.date_input` returning `None` (line 70). -/
structure FormInput where
  full_name : String
  date_of_birth : Option Nat
  phone : String
  email : String
  address : String
  visit_date : Option Nat
  department : String
  symptoms : String
  allergies : String
  additional_notes : String
  deriving DecidableEq, Repr

/-- The payload dict built by `main` (lines 80-92): the eleven
user-supplied fields of an intake record. -/
structure Payload where
  full_name : String
  Pet_id : String
  date_of_birth : Option Nat
  phone : String
  email : String
  address : String
  visit_date : Option Nat
  department : String
  symptoms : String
  allergies : String
  additional_notes : String
  deriving DecidableEq, Repr

/-- One row of the `pet_records` table, with the system-assigned
`id` and `created_at` columns.  `id`, `full_name`, `date_of_birth` and
`created_at` are total because the schema makes them non-null for every
row this program inserts. -/
structure PetRecord where
  id : Nat
  full_name : String
  Pet_id : String
  date_of_birth : Nat
  phone : String
  email : String
  address : String
  visit_date : Option Nat
  department : String
  symptoms : String
  allergies : String
  additional_notes : String
  created_at : Nat
  deriving DecidableEq, Repr

/-- State of the external database: current table rows (in insertion
order), the next value of the `id` sequence, and the server clock used
for `created_at DEFAULT NOW()`. -/
structure Db where
  rows : List PetRecord
  nextId : Nat
  now : Nat
  deriving DecidableEq, Repr

/-- `CATALOG_NAME` (app.py line 130): compile-time constant. -/
def CATALOG_NAME : String := "pet_data"

/-- `SCHEMA_NAME` (app.py line 131): compile-time constant. -/
def SCHEMA_NAME : String := "public"

/-- `TABLE_NAME` (app.py line 132): compile-time constant. -/
def TABLE_NAME : String := "pet_records"

/-- `_qualified_table_name` (app.py lines 135-136): the quoted
three-part table name, built only from the three constants above. -/
def _qualified_table_name : String :=
  "\"" ++ CATALOG_NAME ++ "\".\"" ++ SCHEMA_NAME ++ "\".\"" ++ TABLE_NAME ++ "\""

/-- `create_schema_sql` (app.py lines 144-146). -/
def create_schema_sql : String :=
  "CREATE SCHEMA IF NOT EXISTS " ++ "\"" ++ CATALOG_NAME ++ "\".\"" ++ SCHEMA_NAME ++ "\";"

/-- `create_table_sql` (app.py lines 148-164). -/
def create_table_sql : String :=
  "CREATE TABLE IF NOT EXISTS " ++ _qualified_table_name ++
  " (id SERIAL PRIMARY KEY, full_name TEXT NOT NULL, Pet_id TEXT," ++
  " date_of_birth DATE NOT NULL, phone TEXT, email TEXT, address TEXT," ++
  " visit_date DATE, department TEXT, symptoms TEXT, allergies TEXT," ++
  " additional_notes TEXT, created_at TIMESTAMPTZ DEFAULT NOW());"

/-- `insert_sql` (app.py lines 177-203): the statement text interpolates
only `_qualified_table_name`; all values are `%(...)s` placeholders. -/
def insert_sql : String :=
  "INSERT INTO " ++ _qualified_table_name ++
  " (full_name, Pet_id, date_of_birth, phone, email, address, visit_date," ++
  " department, symptoms, allergies, additional_notes) VALUES" ++
  " (%(full_name)s, %(Pet_id)s, %(date_of_birth)s, %(phone)s, %(email)s," ++
  " %(address)s, %(visit_date)s, %(department)s, %(symptoms)s," ++
  " %(allergies)s, %(additional_notes)s);"

/-- `select_sql` (app.py lines 219-236). -/
def select_sql : String :=
  "SELECT id, full_name, Pet_id, date_of_birth, phone, email, address," ++
  " visit_date, department, symptoms, allergies, additional_notes," ++
  " created_at FROM " ++ _qualified_table_name ++ " ORDER BY created_at DESC;"

/-- Low-level database events performed by the adapter.  `executeParams`
carries the statement text and the payload passed separately as
statement parameters (`cur.execute(insert_sql, payload)`). -/
inductive SqlEvent where
  | connect
  | execute (sql : String)
  | executeParams (sql : String) (params : Payload)
  | commit
  | rollback
  deriving DecidableEq, Repr

/-- Errors raised by the adapter operations: the missing-token
`ValueError`, a psycopg2 connection failure, and a NOT-NULL constraint
violation reported by the database. -/
inductive DbError where
  | missingToken
  | connectivity
  | constraint
  deriving DecidableEq, Repr

/-- Statements executed by `_create_schema_and_table` (app.py lines
143-167): the schema and table creation, in order, with no error
handling, no rollback and no retry around them. -/
def _create_schema_and_table_events : List SqlEvent :=
  [SqlEvent.execute create_schema_sql, SqlEvent.execute create_table_sql]

/-- The row a successful `INSERT` adds: the eleven payload values, the
next `id` from the sequence, and `created_at` set by `NOW()`. -/
def newRow (db : Db) (p : Payload) (dob : Nat) : PetRecord :=
  { id := db.nextId
    full_name := p.full_name
    Pet_id := p.Pet_id
    date_of_birth := dob
    phone := p.phone
    email := p.email
    address := p.address
    visit_date := p.visit_date
    department := p.department
    symptoms := p.symptoms
    allergies := p.allergies
    additional_notes := p.additional_notes
    created_at := db.now }

/-- Effect of a successful `INSERT` on the database state: the new row
is appended and the `id` sequence advances. -/
def dbInsertRow (db : Db) (p : Payload) (dob : Nat) : Db :=
  { rows := db.rows ++ [newRow db p dob]
    nextId := db.nextId + 1
    now := db.now }

/-- `insert_Pet_intake` (app.py lines 170-209).  Raises the
missing-token `ValueError` before connecting; opens a fresh connection
(`psycopg2.connect`, line 205) on every call; runs
`_create_schema_and_table`, then the parameterized insert, then
commits.  A NOT-NULL violation (a `None` date of birth) aborts the
transaction, which the connection context manager rolls back.  The
second component is the event trace of the call. -/
def insert_Pet_intake (env : DbEnv) (db : Db) (p : Payload) :
    Except DbError Db × List SqlEvent :=
  if env.token.isNone then (Except.error DbError.missingToken, [])
  else if env.reachable = false then (Except.error DbError.connectivity, [])
  else
    match p.date_of_birth with
    | none =>
        (Except.error DbError.constraint,
          SqlEvent.connect ::
            (_create_schema_and_table_events ++
              [SqlEvent.executeParams insert_sql p, SqlEvent.rollback]))
    | some dob =>
        (Except.ok (dbInsertRow db p dob),
          SqlEvent.connect ::
            (_create_schema_and_table_events ++
              [SqlEvent.executeParams insert_sql p, SqlEvent.commit]))

/-- Ordering relation realizing `ORDER BY created_at DESC`: `a` comes
no later than `b` when its timestamp is no smaller. -/
def createdDesc (a b : PetRecord) : Prop :=
  b.created_at ≤ a.created_at

instance : DecidableRel createdDesc :=
  fun a b => inferInstanceAs (Decidable (b.created_at ≤ a.created_at))

instance : IsTotal PetRecord createdDesc :=
  ⟨fun a b => Nat.le_total b.created_at a.created_at⟩

instance : IsTrans PetRecord createdDesc :=
  ⟨fun a b c hab hbc => Nat.le_trans hbc hab⟩

/-- `fetch_Pet_records` (app.py lines 212-245).  Same token check and
fresh connection per call (line 238); runs `_create_schema_and_table`,
then the `SELECT ... ORDER BY created_at DESC`, returning every row of
the table most-recent first. -/
def fetch_Pet_records (env : DbEnv) (db : Db) :
    Except DbError (List PetRecord) × List SqlEvent :=
  if env.token.isNone then (Except.error DbError.missingToken, [])
  else if env.reachable = false then (Except.error DbError.connectivity, [])
  else
    (Except.ok (List.insertionSort createdDesc db.rows),
      SqlEvent.connect ::
        (_create_schema_and_table_events ++
          [SqlEvent.execute select_sql, SqlEvent.commit]))

/-- The 32 hex digits (most significant first) of the low 128 bits of
`r`: the model of `uuid.uuid4().hex`, where `r` stands for the random
128-bit value drawn by `uuid4`. -/
def uuidNibbles (r : Nat) : List Nat :=
  (List.range 32).map fun i => r % 2 ^ 128 / 16 ^ (31 - i) % 16

/-- One lowercase hexadecimal digit character (`0`-`9`, `a`-`f`). -/
def hexChar (n : Nat) : Char :=
  if n < 10 then Char.ofNat (48 + n) else Char.ofNat (87 + n)

/-- `_generate_pet_id` (app.py lines 139-140):
`f"PET-{uuid.uuid4().hex[:10].upper()}"`, with the random draw of
`uuid4` made explicit as the argument `r`. -/
def _generate_pet_id (r : Nat) : String :=
  "PET-" ++ String.mk (((uuidNibbles r).take 10).map fun n => Char.toUpper (hexChar n))

/-- Session state kept by Streamlit across reruns: the pet identifier
generated once per session (`st.session_state["pet_id"]`). -/
structure SessionState where
  pet_id : String
  deriving DecidableEq, Repr

/-- Outcome reported to the user by the submit branch of `main`:
`st.error` for validation failures (carrying the missing-field names)
and insert failures, `st.success` + `st.write(payload)` on success. -/
inductive SubmitResult where
  | validationError (missing : List String)
  | insertError (e : DbError)
  | success (payload : Payload)
  deriving DecidableEq, Repr

/-- Full result of one submit interaction: the reported outcome, the
session state and database after it, the form contents after it (the
code never writes to the form widgets), and the SQL events performed. -/
structure SubmitOutcome where
  result : SubmitResult
  session : SessionState
  db : Db
  form : FormInput
  events : List SqlEvent
  deriving DecidableEq, Repr

/-- Label appended to `missing_fields` for an empty full name. -/
def fullNameLabel : String := "Full name"

/-- Label appended to `missing_fields` for an absent birth date. -/
def dobLabel : String := "Date of birth"

/-- Python `str.strip()` with no argument: remove whitespace from both
ends of the string.  (Defined structurally on the character list so
that it evaluates inside the kernel.) -/
def pyStrip (s : String) : String :=
  String.mk
    (((s.data.dropWhile Char.isWhitespace).reverse.dropWhile
        Char.isWhitespace).reverse)

/-- `missing_fields` as accumulated by `main` (app.py lines 67-71): the
full-name label when the stripped name is empty (`not full_name.strip()`),
then the birth-date label when the date is `None`.  Nothing else is ever
appended. -/
def missingFields (input : FormInput) : List String :=
  (if pyStrip input.full_name = "" then [fullNameLabel] else []) ++
  (if input.date_of_birth = none then [dobLabel] else [])

/-- The payload dict built by `main` (app.py lines 80-92): raw widget
values, unstripped, with the session pet identifier. -/
def mkPayload (st : SessionState) (input : FormInput) : Payload :=
  { full_name := input.full_name
    Pet_id := st.pet_id
    date_of_birth := input.date_of_birth
    phone := input.phone
    email := input.email
    address := input.address
    visit_date := input.visit_date
    department := input.department
    symptoms := input.symptoms
    allergies := input.allergies
    additional_notes := input.additional_notes }

/-- The submit branch of `main` (app.py lines 66-102).  `rngNext` is
the random 128-bit value the next `uuid4()` call would draw; it is used
only in the success branch (line 102).  On validation failure and on
insert failure the function returns before touching the session state,
the database, or the form. -/
def handleSubmit (env : DbEnv) (rngNext : Nat) (st : SessionState) (db : Db)
    (input : FormInput) : SubmitOutcome :=
  if missingFields input = [] then
    let payload := mkPayload st input
    match insert_Pet_intake env db payload with
    | (Except.error e, evs) =>
        { result := SubmitResult.insertError e, session := st, db := db
          form := input, events := evs }
    | (Except.ok db2, evs) =>
        { result := SubmitResult.success payload
          session := { pet_id := _generate_pet_id rngNext }, db := db2
          form := input, events := evs }
  else
    { result := SubmitResult.validationError (missingFields input)
      session := st, db := db, form := input, events := [] }

/-- Separator used to join the missing-field names in the validation
error message. -/
def commaSpace : String := ", "

/-- Human-readable message of each adapter error, as the corresponding
Python exception renders. -/
def dbErrorMessage : DbError → String
  | DbError.missingToken => "Missing OAuth token. Set it in credentials.py."
  | DbError.connectivity => "could not connect to server"
  | DbError.constraint => "null value in column violates not-null constraint"

/-- The banner text `main` shows for each outcome (app.py lines 73-77,
97, 100). -/
def renderSubmit : SubmitResult → String
  | SubmitResult.validationError missing =>
      "Please complete the required fields: " ++
        String.intercalate commaSpace missing ++ "."
  | SubmitResult.insertError e => "Submission failed: " ++ dbErrorMessage e
  | SubmitResult.success _ => "Pet intake form submitted to Lakebase."

/-- One record-store operation of a user session. -/
inductive StoreOp where
  | insertOp (p : Payload)
  | fetchOp
  deriving Repr

/-- Run one operation against the database, collecting its events.  A
failed insert leaves the database unchanged. -/
def runOp (env : DbEnv) (db : Db) : StoreOp → Db × List SqlEvent
  | StoreOp.insertOp p =>
      match insert_Pet_intake env db p with
      | (Except.ok db2, evs) => (db2, evs)
      | (Except.error _, evs) => (db, evs)
  | StoreOp.fetchOp => (db, (fetch_Pet_records env db).2)

/-- Run a whole session of operations, concatenating the event traces. -/
def runSession (env : DbEnv) (db : Db) : List StoreOp → Db × List SqlEvent
  | [] => (db, [])
  | op :: rest =>
      let step := runOp env db op
      let tail := runSession env step.1 rest
      (tail.1, step.2 ++ tail.2)

/-- Whether an event is a connection establishment. -/
def isConnect : SqlEvent → Bool
  | SqlEvent.connect => true
  | _ => false

/-- Whether an event is a rollback. -/
def isRollback : SqlEvent → Bool
  | SqlEvent.rollback => true
  | _ => false

/-- Number of connections established in a trace. -/
def countConnects (evs : List SqlEvent) : Nat :=
  evs.countP isConnect

/-- Number of rollbacks in a trace. -/
def countRollbacks (evs : List SqlEvent) : Nat :=
  evs.countP isRollback

/-- The statement text of an event, when it executes one. -/
def sqlTextOf : SqlEvent → Option String
  | SqlEvent.execute s => some s
  | SqlEvent.executeParams s _ => some s
  | _ => none

/-- The sequence of SQL statement texts issued in a trace. -/
def issuedSqls (evs : List SqlEvent) : List String :=
  evs.filterMap sqlTextOf

/-- Sample OAuth token for concrete test environments. -/
def tokValue : String := "SAMPLE-TOKEN"

/-- Environment with a token and a reachable database. -/
def envOk : DbEnv := { token := some tokValue, reachable := true }

/-- Environment with a token but an unreachable database. -/
def envDown : DbEnv := { token := some tokValue, reachable := false }

/-- Environment with no OAuth token configured. -/
def envNoTok : DbEnv := { token := none, reachable := true }

/-- An empty database whose `id` sequence starts at 1. -/
def db0 : Db := { rows := [], nextId := 1, now := 0 }

/-- A fully valid form input. -/
def input0 : FormInput :=
  { full_name := "Jane Doe"
    date_of_birth := some 19900101
    phone := "+1 555-123-4567"
    email := "jane.doe@example.com"
    address := "123 Main St"
    visit_date := some 20251001
    department := "Cardiology"
    symptoms := "limping"
    allergies := ""
    additional_notes := "" }

/-- A form input whose full name is whitespace-only. -/
def inputBlankName : FormInput :=
  { input0 with full_name := "   " }

/-- A form input with an absent date of birth. -/
def inputNoDob : FormInput :=
  { input0 with date_of_birth := none }

/-- A valid input whose full name carries leading and trailing
whitespace and whose optional fields are all blank. -/
def inputPadded : FormInput :=
  { full_name := "  Jane Doe  "
    date_of_birth := some 19900101
    phone := ""
    email := ""
    address := ""
    visit_date := some 20251001
    department := "General Medicine"
    symptoms := ""
    allergies := ""
    additional_notes := "" }

/-- A session state holding a generated pet identifier. -/
def st5 : SessionState := { pet_id := _generate_pet_id 5 }

/-- A concrete payload for adapter-level tests. -/
def payload0 : Payload := mkPayload st5 input0

/-- A row inserted at server time 1. -/
def rowOld : PetRecord :=
  { id := 1, full_name := "A", Pet_id := "PET-X", date_of_birth := 1
    phone := "", email := "", address := "", visit_date := none
    department := "", symptoms := "", allergies := "", additional_notes := ""
    created_at := 1 }

/-- A row inserted later, at server time 2. -/
def rowNew : PetRecord := { rowOld with id := 2, created_at := 2 }

/-- A database holding the two rows above in insertion order. -/
def dbTwo : Db := { rows := [rowOld, rowNew], nextId := 3, now := 5 }

/-- Uppercase hexadecimal digit: `0`-`9` or `A`(65)-`F`(70). -/
def isUpperHexDigit (c : Char) : Bool :=
  c.isDigit || (decide (65 ≤ c.toNat) && decide (c.toNat ≤ 70))

theorem upperHexDigit_isUpperHex :
    ∀ n < 16, isUpperHexDigit (Char.toUpper (hexChar n)) = true := by decide

theorem upperHexChar_inj :
    ∀ m < 16, ∀ n < 16,
      Char.toUpper (hexChar m) = Char.toUpper (hexChar n) → m = n := by decide

theorem mem_uuidNibbles_lt {r n : Nat} (h : n ∈ uuidNibbles r) : n < 16 := by
  simp only [uuidNibbles, List.mem_map, List.mem_range] at h
  obtain ⟨i, hi, rfl⟩ := h
  exact Nat.mod_lt _ (by norm_num)

theorem map_upperHexChar_inj :
    ∀ (l₁ l₂ : List Nat), (∀ m ∈ l₁, m < 16) → (∀ m ∈ l₂, m < 16) →
      (l₁.map fun n => Char.toUpper (hexChar n)) =
        (l₂.map fun n => Char.toUpper (hexChar n)) → l₁ = l₂ := by
  intro l₁
  induction l₁ with
  | nil =>
      intro l₂ _ _ h
      cases l₂ with
      | nil => rfl
      | cons b t => simp at h
  | cons a t ih =>
      intro l₂ h₁ h₂ h
      cases l₂ with
      | nil => simp at h
      | cons b t₂ =>
          simp only [List.map_cons, List.cons.injEq] at h
          have ha : a < 16 := h₁ a (by simp)
          have hb : b < 16 := h₂ b (by simp)
          have hab : a = b := upperHexChar_inj a ha b hb h.1
          subst hab
          have ht : t = t₂ :=
            ih t₂ (fun m hm => h₁ m (by simp [hm])) (fun m hm => h₂ m (by simp [hm])) h.2
          rw [ht]

/-- Claim C5: every pet identifier produced by the generator is the
string "PET-" followed by exactly 10 uppercase hexadecimal characters,
derived from a random 128-bit value (the argument `r`, of which only the
low 128 bits are used). -/
theorem pet_id_format (r : Nat) :
    ∃ tail : List Char,
      _generate_pet_id r = "PET-" ++ String.mk tail ∧
      tail.length = 10 ∧
      ∀ c ∈ tail, isUpperHexDigit c = true := by
  refine ⟨((uuidNibbles r).take 10).map fun n => Char.toUpper (hexChar n), rfl, ?_, ?_⟩
  · simp only [List.length_map, List.length_take, uuidNibbles, List.length_range]
    rfl
  · intro c hc
    simp only [List.mem_map] at hc
    obtain ⟨n, hn, rfl⟩ := hc
    exact upperHexDigit_isUpperHex n (mem_uuidNibbles_lt (List.mem_of_mem_take hn))

/-- Claim C7 counterexample: a submit cycle in which the random draw
made after the successful submit coincides with the one that produced
the displayed identifier (both equal to 5) yields the same pet
identifier before and after the submit — consecutive identifiers are
not guaranteed to differ. -/
theorem pet_id_consecutive_collision :
    (handleSubmit envOk 5 st5 db0 input0).result = SubmitResult.success payload0 ∧
    (handleSubmit envOk 5 st5 db0 input0).session.pet_id = st5.pet_id :=
  ⟨by decide, rfl⟩

/-- Claim C7 (amended): two consecutively generated pet identifiers
differ exactly when the underlying random 128-bit values differ in
their leading 10 hex digits; the code does not guarantee distinctness
when the two random draws collide on that prefix. -/
theorem pet_id_distinct_iff (r₁ r₂ : Nat) :
    _generate_pet_id r₁ = _generate_pet_id r₂ ↔
      (uuidNibbles r₁).take 10 = (uuidNibbles r₂).take 10 := by
  constructor
  · intro h
    have hd := congrArg String.data h
    simp only [_generate_pet_id, String.data_append] at hd
    have hmap := List.append_cancel_left hd
    exact map_upperHexChar_inj _ _
      (fun m hm => mem_uuidNibbles_lt (List.mem_of_mem_take hm))
      (fun m hm => mem_uuidNibbles_lt (List.mem_of_mem_take hm)) hmap
  · intro h
    simp [_generate_pet_id, h]

theorem insert_connects_one (env : DbEnv) (db : Db) (p : Payload)
    (htok : env.token.isSome = true) (hre : env.reachable = true) :
    countConnects (insert_Pet_intake env db p).2 = 1 := by
  obtain ⟨t, ht⟩ := Option.isSome_iff_exists.mp htok
  cases hdob : p.date_of_birth with
  | none =>
      simp [insert_Pet_intake, ht, hre, hdob, countConnects,
        _create_schema_and_table_events, isConnect, List.countP_cons, List.countP_nil]
  | some d =>
      simp [insert_Pet_intake, ht, hre, hdob, countConnects,
        _create_schema_and_table_events, isConnect, List.countP_cons, List.countP_nil]

theorem fetch_connects_one (env : DbEnv) (db : Db)
    (htok : env.token.isSome = true) (hre : env.reachable = true) :
    countConnects (fetch_Pet_records env db).2 = 1 := by
  obtain ⟨t, ht⟩ := Option.isSome_iff_exists.mp htok
  simp [fetch_Pet_records, ht, hre, countConnects,
    _create_schema_and_table_events, isConnect, List.countP_cons, List.countP_nil]

/-- Claim C3 counterexample: in a healthy session consisting of one
insert followed by one fetch, the adapter establishes two connections,
not at most one — no connection is cached across operations. -/
theorem per_op_reconnect_counterexample :
    ¬ countConnects
        (runSession envOk db0 [StoreOp.insertOp payload0, StoreOp.fetchOp]).2 ≤ 1 := by
  decide

/-- Claim C3 (amended): the adapter opens a fresh database connection
for every insert and fetch operation: a session of n operations with a
configured token and a reachable database performs exactly n connection
establishments, rather than caching a single connection. -/
theorem session_connects_eq_length (env : DbEnv) (db : Db) (ops : List StoreOp)
    (htok : env.token.isSome = true) (hre : env.reachable = true) :
    countConnects (runSession env db ops).2 = ops.length := by
  induction ops generalizing db with
  | nil => simp [runSession, countConnects]
  | cons op rest ih =>
      have hop : countConnects (runOp env db op).2 = 1 := by
        cases op with
        | insertOp p =>
            rcases hi : insert_Pet_intake env db p with ⟨r, evs⟩
            have h1 : countConnects evs = 1 := by
              have h2 := insert_connects_one env db p htok hre
              rw [hi] at h2
              exact h2
            cases r with
            | ok db2 => simp [runOp, hi, h1]
            | error e => simp [runOp, hi, h1]
        | fetchOp =>
            simpa [runOp] using fetch_connects_one env db htok hre
      simp only [runSession, countConnects, List.countP_append, List.length_cons]
      simp only [countConnects] at hop ih
      rw [hop, ih]
      omega

/-- Witness for the amended claim C3: two fetches perform two
connection establishments. -/
theorem session_connects_eq_length_witness :
    countConnects (runSession envOk db0 [StoreOp.fetchOp, StoreOp.fetchOp]).2 = 2 :=
  session_connects_eq_length envOk db0 [StoreOp.fetchOp, StoreOp.fetchOp] rfl rfl

/-- Claim C4 counterexample: with a configured token but an unreachable
database, the insert operation performs no rollback at all (its trace
is empty), not exactly one rollback-and-retry of schema setup. -/
theorem schema_retry_counterexample :
    ¬ countRollbacks (insert_Pet_intake envDown db0 payload0).2 = 1 := by
  decide

/-- Claim C4 (amended): no rollback-and-retry is performed.  On a
connectivity failure the insert raises immediately with an empty event
trace (zero rollbacks, zero schema-setup statements, hence no retry),
the database is left unchanged by the submit, and the Form Controller
surfaces the failure to the user as the submission-failed message. -/
theorem connectivity_propagates (env : DbEnv) (db : Db) (p : Payload)
    (rng : Nat) (st : SessionState) (input : FormInput)
    (htok : env.token.isSome = true) (hre : env.reachable = false)
    (hname : pyStrip input.full_name ≠ "") (hdob : input.date_of_birth ≠ none) :
    insert_Pet_intake env db p = (Except.error DbError.connectivity, []) ∧
    (handleSubmit env rng st db input).result =
      SubmitResult.insertError DbError.connectivity ∧
    (handleSubmit env rng st db input).db = db ∧
    renderSubmit (SubmitResult.insertError DbError.connectivity) =
      "Submission failed: " ++ dbErrorMessage DbError.connectivity := by
  obtain ⟨t, ht⟩ := Option.isSome_iff_exists.mp htok
  have hins : ∀ q : Payload,
      insert_Pet_intake env db q = (Except.error DbError.connectivity, []) := by
    intro q
    simp [insert_Pet_intake, ht, hre]
  have hmf : missingFields input = [] := by
    simp [missingFields, hname, hdob]
  refine ⟨hins p, ?_, ?_, rfl⟩
  · simp [handleSubmit, hmf, hins]
  · simp [handleSubmit, hmf, hins]

/-- Witness for the amended claim C4 at a concrete unreachable
environment. -/
theorem connectivity_propagates_witness :
    insert_Pet_intake envDown db0 payload0 = (Except.error DbError.connectivity, []) ∧
    (handleSubmit envDown 0 st5 db0 input0).result =
      SubmitResult.insertError DbError.connectivity ∧
    (handleSubmit envDown 0 st5 db0 input0).db = db0 ∧
    renderSubmit (SubmitResult.insertError DbError.connectivity) =
      "Submission failed: " ++ dbErrorMessage DbError.connectivity :=
  connectivity_propagates envDown db0 payload0 0 st5 input0 rfl rfl
    (by decide) (by decide)

/-- Claim C1: for every payload with a non-empty full name and a
non-null birth date, `insert_Pet_intake` followed by
`fetch_Pet_records` returns a record whose eleven user-supplied fields
equal the payload values and whose system-assigned `id` and
`created_at` are populated (they are total fields of `PetRecord`,
holding the sequence value and the server clock at insert time). -/
theorem insert_then_fetch_roundtrip (env : DbEnv) (db : Db) (p : Payload) (d : Nat)
    (htok : env.token.isSome = true) (hre : env.reachable = true)
    (hname : p.full_name ≠ "") (hdob : p.date_of_birth = some d) :
    ∃ db2 rows,
      (insert_Pet_intake env db p).1 = Except.ok db2 ∧
      (fetch_Pet_records env db2).1 = Except.ok rows ∧
      ∃ r, r ∈ rows ∧
        r.full_name = p.full_name ∧ r.Pet_id = p.Pet_id ∧
        some r.date_of_birth = p.date_of_birth ∧
        r.phone = p.phone ∧ r.email = p.email ∧ r.address = p.address ∧
        r.visit_date = p.visit_date ∧ r.department = p.department ∧
        r.symptoms = p.symptoms ∧ r.allergies = p.allergies ∧
        r.additional_notes = p.additional_notes ∧
        r.id = db.nextId ∧ r.created_at = db.now := by
  obtain ⟨t, ht⟩ := Option.isSome_iff_exists.mp htok
  refine ⟨dbInsertRow db p d,
    List.insertionSort createdDesc (dbInsertRow db p d).rows, ?_, ?_, ?_⟩
  · simp [insert_Pet_intake, ht, hre, hdob]
  · simp [fetch_Pet_records, ht, hre]
  · refine ⟨newRow db p d, ?_, rfl, rfl, hdob.symm, rfl, rfl, rfl, rfl,
      rfl, rfl, rfl, rfl, rfl, rfl⟩
    refine (List.perm_insertionSort createdDesc (dbInsertRow db p d).rows).mem_iff.mpr ?_
    simp [dbInsertRow]

/-- Witness for claim C1 at a concrete environment and payload. -/
theorem insert_then_fetch_roundtrip_witness :
    ∃ db2 rows,
      (insert_Pet_intake envOk db0 payload0).1 = Except.ok db2 ∧
      (fetch_Pet_records envOk db2).1 = Except.ok rows ∧
      ∃ r, r ∈ rows ∧
        r.full_name = payload0.full_name ∧ r.Pet_id = payload0.Pet_id ∧
        some r.date_of_birth = payload0.date_of_birth ∧
        r.phone = payload0.phone ∧ r.email = payload0.email ∧
        r.address = payload0.address ∧ r.visit_date = payload0.visit_date ∧
        r.department = payload0.department ∧ r.symptoms = payload0.symptoms ∧
        r.allergies = payload0.allergies ∧
        r.additional_notes = payload0.additional_notes ∧
        r.id = db0.nextId ∧ r.created_at = db0.now :=
  insert_then_fetch_roundtrip envOk db0 payload0 19900101 rfl rfl (by decide) rfl

/-- Claim C2: a submission with an empty or whitespace-only full name,
or an absent birth date, yields a validation error that names exactly
the missing required fields, with no insert performed and no state
changed; and no other field is required for validation to pass. -/
theorem submit_validation (env : DbEnv) (rng : Nat) (st : SessionState) (db : Db)
    (input : FormInput)
    (hmiss : pyStrip input.full_name = "" ∨ input.date_of_birth = none) :
    handleSubmit env rng st db input =
      { result := SubmitResult.validationError (missingFields input)
        session := st, db := db, form := input, events := [] } ∧
    (fullNameLabel ∈ missingFields input ↔ pyStrip input.full_name = "") ∧
    (dobLabel ∈ missingFields input ↔ input.date_of_birth = none) ∧
    (∀ f ∈ missingFields input, f = fullNameLabel ∨ f = dobLabel) ∧
    (∀ input2 : FormInput, pyStrip input2.full_name ≠ "" →
        input2.date_of_birth ≠ none →
        ∀ l, (handleSubmit env rng st db input2).result ≠
          SubmitResult.validationError l) := by
  have labels_ne : fullNameLabel ≠ dobLabel := by decide
  have hne : missingFields input ≠ [] := by
    intro h0
    rcases hmiss with h | h
    · simp [missingFields, h] at h0
    · simp [missingFields, h] at h0
  refine ⟨?_, ?_, ?_, ?_, ?_⟩
  · simp [handleSubmit, hne]
  · by_cases h1 : pyStrip input.full_name = "" <;>
      by_cases h2 : input.date_of_birth = none <;>
      simp [missingFields, h1, h2, labels_ne]
  · by_cases h1 : pyStrip input.full_name = "" <;>
      by_cases h2 : input.date_of_birth = none <;>
      simp [missingFields, h1, h2, labels_ne, labels_ne.symm]
  · intro f hf
    by_cases h1 : pyStrip input.full_name = "" <;>
      by_cases h2 : input.date_of_birth = none <;>
      simp [missingFields, h1, h2] at hf <;> tauto
  · intro input2 h1 h2 l
    have hmf : missingFields input2 = [] := by
      simp [missingFields, h1, h2]
    simp only [handleSubmit, hmf, if_pos]
    rcases hi : insert_Pet_intake env db (mkPayload st input2) with ⟨r, evs⟩
    cases r with
    | error e => simp [hi]
    | ok db2 => simp [hi]

/-- Witness for claim C2: a whitespace-only full name yields the
validation error naming the full-name field and changes nothing. -/
theorem submit_validation_witness :
    handleSubmit envOk 0 st5 db0 inputBlankName =
      { result := SubmitResult.validationError (missingFields inputBlankName)
        session := st5, db := db0, form := inputBlankName, events := [] } :=
  (submit_validation envOk 0 st5 db0 inputBlankName (Or.inl (by decide))).1

/-- Claim C6: `fetch_Pet_records` returns exactly the stored records
(with all their fields, including the system-assigned `id` and
`created_at`), ordered by `created_at` descending: a record with a
strictly larger `created_at` appears strictly earlier in the returned
sequence. -/
theorem fetch_ordering (env : DbEnv) (db : Db) (rows : List PetRecord)
    (htok : env.token.isSome = true) (hre : env.reachable = true)
    (hrows : (fetch_Pet_records env db).1 = Except.ok rows) :
    (∀ r : PetRecord, r ∈ rows ↔ r ∈ db.rows) ∧
    ∀ i j : Fin rows.length,
      (rows.get i).created_at < (rows.get j).created_at →
        (j : Nat) < (i : Nat) := by
  obtain ⟨t, ht⟩ := Option.isSome_iff_exists.mp htok
  have hrw : rows = List.insertionSort createdDesc db.rows := by
    simp [fetch_Pet_records, ht, hre] at hrows
    exact hrows.symm
  subst hrw
  constructor
  · intro r
    exact (List.perm_insertionSort createdDesc db.rows).mem_iff
  · have hp : List.Pairwise createdDesc (List.insertionSort createdDesc db.rows) :=
      List.sorted_insertionSort createdDesc db.rows
    have hpair := List.pairwise_iff_get.mp hp
    intro i j hlt
    by_contra hji
    push_neg at hji
    rcases Nat.eq_or_lt_of_le hji with heq | hij
    · have hij2 : i = j := Fin.ext heq
      subst hij2
      exact lt_irrefl _ hlt
    · have hrel := hpair i j (by rw [Fin.lt_def]; exact hij)
      simp only [createdDesc] at hrel
      omega

/-- Witness for claim C6: the two-row database is returned newest
first. -/
theorem fetch_ordering_witness :
    (∀ r : PetRecord, r ∈ [rowNew, rowOld] ↔ r ∈ dbTwo.rows) ∧
    ∀ i j : Fin ([rowNew, rowOld] : List PetRecord).length,
      (([rowNew, rowOld] : List PetRecord).get i).created_at <
        (([rowNew, rowOld] : List PetRecord).get j).created_at →
        (j : Nat) < (i : Nat) :=
  fetch_ordering envOk dbTwo [rowNew, rowOld] rfl rfl rfl

/-- A second concrete payload, differing from `payload0` in every text
field. -/
def payloadAlt : Payload := mkPayload st5 inputPadded

/-- Claim C8: when the insert raises, the Form Controller reports the
submission-failed message and aborts without regenerating the session
pet identifier, without touching the database and without clearing the
form; the identifier is rotated only on a successful insert. -/
theorem submit_failure_frame (env : DbEnv) (rng : Nat) (st : SessionState)
    (db : Db) (input : FormInput) :
    (∀ e, (handleSubmit env rng st db input).result = SubmitResult.insertError e →
        (handleSubmit env rng st db input).session = st ∧
        (handleSubmit env rng st db input).db = db ∧
        (handleSubmit env rng st db input).form = input ∧
        renderSubmit (handleSubmit env rng st db input).result =
          "Submission failed: " ++ dbErrorMessage e) ∧
    ∀ p, (handleSubmit env rng st db input).result = SubmitResult.success p →
        (handleSubmit env rng st db input).session =
          { pet_id := _generate_pet_id rng } := by
  by_cases hmf : missingFields input = []
  · rcases hi : insert_Pet_intake env db (mkPayload st input) with ⟨r, evs⟩
    cases r with
    | error e0 =>
        constructor
        · intro e he
          have he2 : e0 = e := by
            simpa [handleSubmit, hmf, hi] using he
          subst he2
          refine ⟨?_, ?_, ?_, ?_⟩ <;> simp [handleSubmit, hmf, hi, renderSubmit]
        · intro p hp
          simp [handleSubmit, hmf, hi] at hp
    | ok db2 =>
        constructor
        · intro e he
          simp [handleSubmit, hmf, hi] at he
        · intro p hp
          simp [handleSubmit, hmf, hi]
  · constructor
    · intro e he
      simp [handleSubmit, hmf] at he
    · intro p hp
      simp [handleSubmit, hmf] at hp

/-- Witness for claim C8: a failed insert (missing token) keeps the
session identifier; a successful one rotates it to the next draw. -/
theorem submit_failure_frame_witness :
    (handleSubmit envNoTok 7 st5 db0 input0).session = st5 ∧
    (handleSubmit envOk 7 st5 db0 input0).session =
      { pet_id := _generate_pet_id 7 } :=
  ⟨((submit_failure_frame envNoTok 7 st5 db0 input0).1 DbError.missingToken rfl).1,
    (submit_failure_frame envOk 7 st5 db0 input0).2 payload0 rfl⟩

/-- Claim C9: the SQL statement texts issued by `insert_Pet_intake` do
not depend on the payload (any two payloads yield the identical
statement-text sequence); the eleven values travel only as statement
parameters of the constant `insert_sql`; and the qualified table name
is the fixed compile-time string. -/
theorem insert_sql_constant (env : DbEnv) (db : Db) (p₁ p₂ : Payload) :
    issuedSqls (insert_Pet_intake env db p₁).2 =
      issuedSqls (insert_Pet_intake env db p₂).2 ∧
    (∀ s q, SqlEvent.executeParams s q ∈ (insert_Pet_intake env db p₁).2 →
        s = insert_sql ∧ q = p₁) ∧
    _qualified_table_name = "\"pet_data\".\"public\".\"pet_records\"" := by
  rcases env with ⟨tok, re⟩
  refine ⟨?_, ?_, rfl⟩
  · cases tok with
    | none => rfl
    | some t =>
        cases re with
        | false => rfl
        | true =>
            cases h1 : p₁.date_of_birth <;> cases h2 : p₂.date_of_birth <;>
              simp [insert_Pet_intake, h1, h2, issuedSqls,
                _create_schema_and_table_events, sqlTextOf]
  · intro s q hmem
    cases tok with
    | none => simp [insert_Pet_intake] at hmem
    | some t =>
        cases re with
        | false => simp [insert_Pet_intake] at hmem
        | true =>
            cases h1 : p₁.date_of_birth <;>
              simp [insert_Pet_intake, h1,
                _create_schema_and_table_events] at hmem <;>
              tauto

/-- Witness for claim C9: two maximally different payloads produce the
same statement-text sequence. -/
theorem insert_sql_constant_witness :
    issuedSqls (insert_Pet_intake envOk db0 payload0).2 =
      issuedSqls (insert_Pet_intake envOk db0 payloadAlt).2 :=
  (insert_sql_constant envOk db0 payload0 payloadAlt).1

/-- Claim C10: stripping is applied only for the emptiness check — the
persisted row carries the exact entered full name (whitespace
included), and blank optional text fields are persisted as the empty
strings supplied by the form. -/
theorem stored_values_raw (env : DbEnv) (rng : Nat) (st : SessionState)
    (db : Db) (input : FormInput) (d : Nat)
    (htok : env.token.isSome = true) (hre : env.reachable = true)
    (hname : pyStrip input.full_name ≠ "") (hdob : input.date_of_birth = some d) :
    (handleSubmit env rng st db input).db.rows =
      db.rows ++ [newRow db (mkPayload st input) d] ∧
    (newRow db (mkPayload st input) d).full_name = input.full_name ∧
    (newRow db (mkPayload st input) d).phone = input.phone ∧
    (newRow db (mkPayload st input) d).email = input.email ∧
    (newRow db (mkPayload st input) d).address = input.address ∧
    (newRow db (mkPayload st input) d).symptoms = input.symptoms ∧
    (newRow db (mkPayload st input) d).allergies = input.allergies ∧
    (newRow db (mkPayload st input) d).additional_notes = input.additional_notes := by
  obtain ⟨t, ht⟩ := Option.isSome_iff_exists.mp htok
  have hmf : missingFields input = [] := by
    simp [missingFields, hname, hdob]
  refine ⟨?_, rfl, rfl, rfl, rfl, rfl, rfl, rfl⟩
  simp [handleSubmit, hmf, insert_Pet_intake, ht, hre, mkPayload, hdob, dbInsertRow]

/-- Witness for claim C10: a name entered with leading and trailing
spaces is stored verbatim, and blank optional fields are stored as the
empty string. -/
theorem stored_values_raw_witness :
    (handleSubmit envOk 0 st5 db0 inputPadded).db.rows =
      db0.rows ++ [newRow db0 (mkPayload st5 inputPadded) 19900101] ∧
    (newRow db0 (mkPayload st5 inputPadded) 19900101).full_name = "  Jane Doe  " ∧
    (newRow db0 (mkPayload st5 inputPadded) 19900101).phone = "" ∧
    (newRow db0 (mkPayload st5 inputPadded) 19900101).email = "" ∧
    (newRow db0 (mkPayload st5 inputPadded) 19900101).address = "" ∧
    (newRow db0 (mkPayload st5 inputPadded) 19900101).symptoms = "" ∧
    (newRow db0 (mkPayload st5 inputPadded) 19900101).allergies = "" ∧
    (newRow db0 (mkPayload st5 inputPadded) 19900101).additional_notes = "" :=
  stored_values_raw envOk 0 st5 db0 inputPadded 19900101 rfl rfl (by decide) rfl
